import Mathlib

/-!
Verification of the AviiMaui face-tracking avatar pipeline.

The development shallowly embeds the code that drives a Live2D avatar from
facial-tracking input: the feature extractor (`ProcessFaceAnchor` in the
ARKit service), the bridge transport (`MauiBridgeService.invoke`, the
`handleMessage` event listener), the parameter smoother and sink
(`updateFaceData` in `Live2DViewer.tsx` and in `Live2DController`), the
viewport pan/zoom handlers, and the tracking-session start logic
(`FaceTrackingService.StartTrackingAsync`, `MauiBridge.StartFaceTracking`).
JavaScript / C# floating-point numbers are modelled as exact rationals.
-/

namespace AviiMaui

/-- `FaceTrackingResult` from `useFaceTracking.ts`: one normalized feature
frame (head angles in degrees, eye/mouth openness, gaze, brows). -/
structure FaceTrackingResult where
  angleX : ℚ
  angleY : ℚ
  angleZ : ℚ
  eyeOpenL : ℚ
  eyeOpenR : ℚ
  eyeBallX : ℚ
  eyeBallY : ℚ
  mouthOpen : ℚ
  browL : ℚ
  browR : ℚ
deriving DecidableEq

/-- The 8-dimension smoothed parameter state (`paramsRef` in
`Live2DViewer.tsx`, `currentParams` in `Live2DController`). -/
structure SmoothedParams where
  angleX : ℚ
  angleY : ℚ
  angleZ : ℚ
  eyeOpenL : ℚ
  eyeOpenR : ℚ
  eyeBallX : ℚ
  eyeBallY : ℚ
  mouthOpen : ℚ
deriving DecidableEq

/-- Initial value of `paramsRef` in `Live2DViewer.tsx` (angles 0,
eyeOpen 1, eyeBall 0, mouthOpen 0). -/
def initParams : SmoothedParams :=
  { angleX := 0, angleY := 0, angleZ := 0, eyeOpenL := 1, eyeOpenR := 1
    eyeBallX := 0, eyeBallY := 0, mouthOpen := 0 }

/-- Initial value of `currentParams` in `Live2DController` (part_002). -/
def controllerInitParams : SmoothedParams :=
  { angleX := 0, angleY := 0, angleZ := 0, eyeOpenL := 1, eyeOpenR := 1
    eyeBallX := 0, eyeBallY := 0, mouthOpen := 0 }

/-- `lerp` from `Live2DViewer.tsx`:
`(current, target, factor) => current + (target - current) * factor`. -/
def lerp (current target factor : ℚ) : ℚ :=
  current + (target - current) * factor

/-- `lerp` from `Live2DController` (part_002); textually the same formula. -/
def controllerLerp (current target factor : ℚ) : ℚ :=
  current + (target - current) * factor

/-- Sensitivity scale factors (`PARAM_SCALES` in `Live2DViewer.tsx`,
`SCALES` in `Live2DController`). -/
structure ParamScales where
  angleX : ℚ
  angleY : ℚ
  angleZ : ℚ
  eyeBallX : ℚ
  eyeBallY : ℚ

/-- `PARAM_SCALES` from `Live2DViewer.tsx`. -/
def PARAM_SCALES : ParamScales :=
  { angleX := 5/2, angleY := 5/2, angleZ := 5/2, eyeBallX := 1, eyeBallY := 1 }

/-- `SCALES` from `Live2DController` (part_002). -/
def SCALES : ParamScales :=
  { angleX := 5/2, angleY := 5/2, angleZ := 5/2, eyeBallX := 1, eyeBallY := 1 }

/-- The smoothing-state update performed by `updateFaceData` in
`Live2DViewer.tsx` (lines 249-260): the three angle targets are scaled by
`PARAM_SCALES`, all 8 dimensions are lerped toward their targets. -/
def updateParams (params : SmoothedParams) (data : FaceTrackingResult)
    (factor : ℚ) : SmoothedParams :=
  { angleX := lerp params.angleX (data.angleX * PARAM_SCALES.angleX) factor
    angleY := lerp params.angleY (data.angleY * PARAM_SCALES.angleY) factor
    angleZ := lerp params.angleZ (data.angleZ * PARAM_SCALES.angleZ) factor
    eyeOpenL := lerp params.eyeOpenL data.eyeOpenL factor
    eyeOpenR := lerp params.eyeOpenR data.eyeOpenR factor
    eyeBallX := lerp params.eyeBallX data.eyeBallX factor
    eyeBallY := lerp params.eyeBallY data.eyeBallY factor
    mouthOpen := lerp params.mouthOpen data.mouthOpen factor }

/-- The smoothing-state update performed by
`Live2DController.updateFaceData` (part_002 lines 787-800). -/
def controllerUpdateParams (params : SmoothedParams)
    (data : FaceTrackingResult) (factor : ℚ) : SmoothedParams :=
  { angleX := controllerLerp params.angleX (data.angleX * SCALES.angleX) factor
    angleY := controllerLerp params.angleY (data.angleY * SCALES.angleY) factor
    angleZ := controllerLerp params.angleZ (data.angleZ * SCALES.angleZ) factor
    eyeOpenL := controllerLerp params.eyeOpenL data.eyeOpenL factor
    eyeOpenR := controllerLerp params.eyeOpenR data.eyeOpenR factor
    eyeBallX := controllerLerp params.eyeBallX data.eyeBallX factor
    eyeBallY := controllerLerp params.eyeBallY data.eyeBallY factor
    mouthOpen := controllerLerp params.mouthOpen data.mouthOpen factor }

/-- The 8 named parameter writes issued by `updateFaceData`
(`setParameterValueById` calls, in source order). -/
def paramWrites (p : SmoothedParams) : List (String × ℚ) :=
  [("ParamAngleX", p.angleX), ("ParamAngleY", p.angleY),
   ("ParamAngleZ", p.angleZ), ("ParamEyeLOpen", p.eyeOpenL),
   ("ParamEyeROpen", p.eyeOpenR), ("ParamEyeBallX", p.eyeBallX),
   ("ParamEyeBallY", p.eyeBallY), ("ParamMouthOpenY", p.mouthOpen)]

/-- Semantics of the write block in `updateFaceData`: all 8
`setParameterValueById` calls sit in ONE `try { ... } catch {}`.  A write
to a parameter the rig lacks throws; the catch swallows the exception, so
the writes actually applied are the longest supported prefix — the failing
write and every write after it are skipped. -/
def applyWrites (supports : String → Bool) :
    List (String × ℚ) → List (String × ℚ)
  | [] => []
  | w :: rest =>
    if supports w.1 then w :: applyWrites supports rest else []

/-- The per-write-tolerant sink described by the spec (each write
individually wrapped: an unsupported parameter skips only itself).
Modelled from the spec for comparison against `applyWrites`. -/
def applyWritesPerWrite (supports : String → Bool) :
    List (String × ℚ) → List (String × ℚ)
  | [] => []
  | w :: rest =>
    if supports w.1 then w :: applyWritesPerWrite supports rest
    else applyWritesPerWrite supports rest

/-- The render-side viewer state: the currently loaded model handle (the
set of parameter ids the rig supports; `none` while no model is loaded)
and the smoothed parameter state (`paramsRef`). -/
structure ViewerState where
  model : Option (List String)
  params : SmoothedParams
deriving DecidableEq

/-- Viewer state at component creation: no model, `paramsRef` defaults. -/
def initViewer : ViewerState :=
  { model := none, params := initParams }

/-- `loadModel` in `Live2DViewer.tsx` (lines 207-239): destroys the old
model (if any) and installs the freshly loaded one.  It does not touch
`paramsRef`. -/
def loadModel (handle : List String) (s : ViewerState) : ViewerState :=
  { s with model := some handle }

/-- `updateFaceData` in `Live2DViewer.tsx` (lines 241-279): no-op when no
model is loaded; otherwise updates the smoothing state and issues the 8
parameter writes (single try/catch semantics).  Returns the new state and
the list of writes that actually reached the core model. -/
def updateFaceData (data : FaceTrackingResult) (factor : ℚ)
    (s : ViewerState) : ViewerState × List (String × ℚ) :=
  match s.model with
  | none => (s, [])
  | some h =>
    let params := updateParams s.params data factor
    (⟨some h, params⟩, applyWrites (fun n => h.contains n) (paramWrites params))

/-- The nullable blend-shape coefficients read by
`FaceTrackingService.ProcessFaceAnchor` (part_000).  Each C# nullable
float `bs.X ?? 0f` is an `Option ℚ` read with `Option.getD 0`. -/
structure BlendShapes where
  eyeBlinkLeft : Option ℚ
  eyeBlinkRight : Option ℚ
  eyeLookOutLeft : Option ℚ
  eyeLookInLeft : Option ℚ
  eyeLookUpLeft : Option ℚ
  eyeLookDownLeft : Option ℚ
  jawOpen : Option ℚ
  browOuterUpLeft : Option ℚ
  browDownLeft : Option ℚ
  browOuterUpRight : Option ℚ
  browDownRight : Option ℚ

/-- Feature extraction in `FaceTrackingService.ProcessFaceAnchor`
(part_000 lines 157-182).  The three head angles come from
`ExtractEulerAngles` (asin/atan2 on the transform matrix) converted to
degrees; those transcendental values are not representable over ℚ, so the
already-extracted degree values are taken as inputs (`yawDeg`, `pitchDeg`,
`rollDeg`) — the claims under verification only concern the blend-shape
fields, which are transcribed exactly: `EyeOpenL/R = 1 - blink`,
`MouthOpen = jawOpen`, gaze and brows as differences, with NO clamping
anywhere. -/
def processFaceAnchor (pitchDeg yawDeg rollDeg : ℚ) (bs : BlendShapes) :
    FaceTrackingResult :=
  { angleX := yawDeg
    angleY := pitchDeg
    angleZ := rollDeg
    eyeOpenL := 1 - bs.eyeBlinkLeft.getD 0
    eyeOpenR := 1 - bs.eyeBlinkRight.getD 0
    eyeBallX := bs.eyeLookOutLeft.getD 0 - bs.eyeLookInLeft.getD 0
    eyeBallY := bs.eyeLookUpLeft.getD 0 - bs.eyeLookDownLeft.getD 0
    mouthOpen := bs.jawOpen.getD 0
    browL := bs.browOuterUpLeft.getD 0 - bs.browDownLeft.getD 0
    browR := bs.browOuterUpRight.getD 0 - bs.browDownRight.getD 0 }

/-- JSON values, for the bridge payloads handled by
`MauiBridgeService.invoke` and the `handleMessage` event listener. -/
inductive Json where
  | jnull : Json
  | jbool : Bool → Json
  | jnum : ℚ → Json
  | jstr : String → Json
  | jarr : List Json → Json
  | jobj : List (String × Json) → Json

/-- The logical-failure test in `MauiBridgeService.invoke` /
`MauiApiService.invoke`:
`data && typeof data === "object" && "error" in data &&
typeof data.error === "string"`.  In the embedding a truthy JS object with
an own `error` property is a `jobj` whose field list binds `"error"`;
JSON arrays are also `typeof "object"` but never carry an `"error"`
property, and `null` is excluded by the leading `data &&`. -/
def errorStringField : Json → Option String
  | .jobj fields =>
    match fields.lookup "error" with
    | some (.jstr s) => some s
    | _ => none
  | _ => none

/-- Outcome of `callMauiBridge` plus `JSON.parse` as seen by `invoke`:
the transport either failed with a message, or succeeded but the response
text was not valid JSON, or succeeded and parsed to a payload. -/
inductive BridgeRaw where
  | transportErr : String → BridgeRaw
  | invalidJson : BridgeRaw
  | payload : Json → BridgeRaw

/-- `MauiBridgeService.invoke` (part_004 lines 82-112) after the transport
call: propagate transport errors, reject unparseable JSON, treat a payload
with a string `error` field as a logical failure, then run the zod schema
(modelled as a partial decoding function). -/
def invoke {T : Type} (r : BridgeRaw) (schema : Json → Option T) :
    Except String T :=
  match r with
  | .transportErr m => .error m
  | .invalidJson => .error "Bridge returned invalid JSON"
  | .payload j =>
    match errorStringField j with
    | some s => .error s
    | none =>
      match schema j with
      | some t => .ok t
      | none => .error "Data parsing failed"

/-- JavaScript truthiness of a parsed JSON value (`parsed.data` is tested
with `&&` in `handleMessage`). -/
def jsTruthy : Json → Bool
  | .jnull => false
  | .jbool b => b
  | .jnum q => decide (q ≠ 0)
  | .jstr s => decide (s ≠ "")
  | .jarr _ => true
  | .jobj _ => true

/-- The guard `parsed.type === "faceTracking" && parsed.data` in
`handleMessage` (`useNativeFaceTracking.ts` lines 98-128): the payload is
delivered iff the parsed value is an object whose `type` property is the
string `"faceTracking"` and whose `data` property is present and truthy. -/
def faceTrackingPayload : Json → Option Json
  | .jobj fields =>
    match fields.lookup "type", fields.lookup "data" with
    | some (.jstr t), some d =>
      if t = "faceTracking" && jsTruthy d then some d else none
    | _, _ => none
  | _ => none

/-- Body of the `try` block in `handleMessage`: returns `.error` where the
JS code throws (`JSON.parse` on malformed input, modelled by the parse
oracle returning `none`), `.ok (some d)` where the data callback is
invoked with `d`, `.ok none` where the message is dropped. -/
def handleMessageBody (parse : String → Option Json)
    (raw : Option String) : Except String (Option Json) :=
  match raw with
  | none => .ok none
  | some r =>
    match parse r with
    | none => .error "SyntaxError"
    | some parsed => .ok (faceTrackingPayload parsed)

/-- `handleMessage` with its surrounding `try { ... } catch { }`: a parse
exception is swallowed, so the handler is total — it either invokes the
callback (`some d`) or silently drops the message (`none`), and never
propagates an exception to the event dispatcher. -/
def handleMessage (parse : String → Option Json)
    (raw : Option String) : Option Json :=
  match handleMessageBody parse raw with
  | .ok r => r
  | .error _ => none

/-- The sequence of data-callback invocations produced by a sequence of
incoming `HybridWebViewMessageReceived` events. -/
def processMessages (parse : String → Option Json)
    (msgs : List (Option String)) : List Json :=
  msgs.filterMap (handleMessage parse)

/-- `DRAG_THRESHOLD_PX` from `Live2DViewer.tsx`. -/
def DRAG_THRESHOLD_PX : ℚ := 4

/-- `DEFAULT_MIN_SCALE` from `Live2DViewer.tsx`. -/
def DEFAULT_MIN_SCALE : ℚ := 1/20

/-- `DEFAULT_MAX_SCALE` from `Live2DViewer.tsx`. -/
def DEFAULT_MAX_SCALE : ℚ := 2

/-- `DEFAULT_ZOOM_STEP` from `Live2DViewer.tsx`. -/
def DEFAULT_ZOOM_STEP : ℚ := 1/20

/-- `dragStateRef` in `Live2DViewer.tsx`. -/
structure DragState where
  active : Bool
  startX : ℚ
  startY : ℚ
  baseX : ℚ
  baseY : ℚ
  moved : Bool
deriving DecidableEq

/-- The viewer's pan state: `dragStateRef` plus the committed `viewOffset`. -/
structure PanState where
  drag : DragState
  offsetX : ℚ
  offsetY : ℚ
deriving DecidableEq

/-- `handlePointerDown` in `Live2DViewer.tsx`: ignored when panning is
disabled or the pointer is on the reserved controls region; otherwise arms
the drag, capturing the pointer position and the current offset. -/
def handlePointerDown (enablePan fromControls : Bool) (x y : ℚ)
    (s : PanState) : PanState :=
  if !enablePan || fromControls then s
  else
    { s with drag :=
        { active := true, startX := x, startY := y
          baseX := s.offsetX, baseY := s.offsetY, moved := false } }

/-- `handlePointerMove` in `Live2DViewer.tsx` (lines 394-416): returns
early unless a drag is active; below the 4 px cumulative |dx|+|dy|
threshold with `moved` still false it does nothing; otherwise it marks
`moved` and commits `offset = base + displacement`. -/
def handlePointerMove (enablePan : Bool) (x y : ℚ) (s : PanState) :
    PanState :=
  if !enablePan || !s.drag.active then s
  else
    let dx := x - s.drag.startX
    let dy := y - s.drag.startY
    let movedEnough : Bool := decide (DRAG_THRESHOLD_PX < |dx| + |dy|)
    if !s.drag.moved && !movedEnough then s
    else
      { drag := { s.drag with moved := true }
        offsetX := s.drag.baseX + dx
        offsetY := s.drag.baseY + dy }

/-- `handlePointerUp` in `Live2DViewer.tsx` (also bound to
pointer-leave): deactivates the drag. -/
def handlePointerUp (s : PanState) : PanState :=
  { s with drag := { s.drag with active := false } }

/-- A sequence of pointer-move events folded through
`handlePointerMove`. -/
def applyMoves (enablePan : Bool) (moves : List (ℚ × ℚ)) (s : PanState) :
    PanState :=
  moves.foldl (fun st m => handlePointerMove enablePan m.1 m.2 st) s

/-- `handleWheel` in `Live2DViewer.tsx` (lines 418-425): one wheel notch
adds `±DEFAULT_ZOOM_STEP` to the scale, clamped with
`Math.min(maxScale, Math.max(minScale, prev + delta))`.
`deltaYPos` is the sign test `e.deltaY > 0`. -/
def handleWheel (minScale maxScale : ℚ) (deltaYPos : Bool) (prev : ℚ) :
    ℚ :=
  let delta := if deltaYPos then -DEFAULT_ZOOM_STEP else DEFAULT_ZOOM_STEP
  min maxScale (max minScale (prev + delta))

/-- `handleWheel` in part_002 (lines 361-368): multiplies the zoom by 0.9
or 1.1 and clamps with `Math.max(0.1, Math.min(5, zoom * zoomDelta))`. -/
def controllerWheelZoom (deltaYPos : Bool) (zoom : ℚ) : ℚ :=
  let zoomDelta : ℚ := if deltaYPos then 9/10 else 11/10
  max (1/10) (min 5 (zoom * zoomDelta))

/-- The pinch branch of `handleTouchMove` in part_002 (lines 427-443):
the zoom is multiplied by the ratio of successive touch distances and
clamped the same way.  The ratio is taken as an input (the distances
involve a square root). -/
def controllerPinchZoom (ratio : ℚ) (zoom : ℚ) : ℚ :=
  max (1/10) (min 5 (zoom * ratio))

/-- One zoom interaction on the part_002 viewer: a wheel notch (with the
sign of `deltaY`) or a pinch step (with its distance ratio). -/
inductive ZoomOp where
  | wheel : Bool → ZoomOp
  | pinch : ℚ → ZoomOp

/-- Fold a sequence of part_002 zoom interactions. -/
def applyZoomOps (ops : List ZoomOp) (z : ℚ) : ℚ :=
  ops.foldl
    (fun z op =>
      match op with
      | .wheel d => controllerWheelZoom d z
      | .pinch r => controllerPinchZoom r z)
    z

/-- Tracking-service state: the `IsTracking` property of
`FaceTrackingService`. -/
structure TrackingState where
  isTracking : Bool
deriving DecidableEq

/-- The environment the iOS `StartTrackingAsync` (part_000 lines 77-122)
probes: `ARFaceTrackingConfiguration.IsSupported`, the camera-permission
request outcome, and whether session construction/run throws. -/
structure IOSEnv where
  arSupported : Bool
  cameraPermission : Bool
  sessionStartThrows : Bool

/-- iOS `FaceTrackingService.StartTrackingAsync` (part_000): early-true
when already tracking; false when ARKit face tracking is unsupported;
false when the camera permission is denied; false when session startup
throws (caught); otherwise sets `IsTracking` and returns true. -/
def startTrackingAsyncIOS (env : IOSEnv) (s : TrackingState) :
    Bool × TrackingState :=
  if s.isTracking then (true, s)
  else if !env.arSupported then (false, s)
  else if !env.cameraPermission then (false, s)
  else if env.sessionStartThrows then (false, s)
  else (true, { isTracking := true })

/-- Non-iOS `FaceTrackingService.StartTrackingAsync`
(`FaceTrackingService.cs`): unconditionally returns false and leaves the
state alone. -/
def startTrackingAsyncDefault (s : TrackingState) : Bool × TrackingState :=
  (false, s)

/-- The `{ success, error }` object `MauiBridge.StartFaceTracking`
serializes back to JavaScript. -/
structure StartResponse where
  success : Bool
  error : Option String
deriving DecidableEq

/-- `MauiBridge.StartFaceTracking` (part_000 lines 310-333): runs the
service's `StartTrackingAsync` and wraps the boolean result; a false
result yields `success = false` with the fixed non-null error message. -/
def startFaceTrackingBridge (start : TrackingState → Bool × TrackingState)
    (s : TrackingState) : StartResponse × TrackingState :=
  let r := start s
  if r.1 then ({ success := true, error := none }, r.2)
  else
    ({ success := false
       error := some "Failed to start face tracking. Device may not support ARKit face tracking." },
     r.2)

/-- `MauiBridge.GetFaceTrackingStatus` (part_000 lines 367-374):
`_faceTrackingService?.IsTracking ?? false`. -/
def getFaceTrackingStatus (s : TrackingState) : Bool :=
  s.isTracking

/-- `n` iterations of the per-frame smoothing update
`state = lerp state target factor` with a constant target (one dimension
of `updateFaceData` under a constant frame). -/
def lerpIter (factor target s0 : ℚ) : ℕ → ℚ
  | 0 => s0
  | n + 1 => lerp (lerpIter factor target s0 n) target factor

/-- The `Live2DViewer.tsx` smoothing pipeline run from its initial
`paramsRef` over a sequence of frames with a fixed lerp factor. -/
def runViewerPipeline (factor : ℚ) (frames : List FaceTrackingResult) :
    SmoothedParams :=
  frames.foldl (fun p d => updateParams p d factor) initParams

/-- The `Live2DController` smoothing pipeline run from its initial
`currentParams` over a sequence of frames with a fixed lerp factor. -/
def runControllerPipeline (factor : ℚ) (frames : List FaceTrackingResult) :
    SmoothedParams :=
  frames.foldl (fun p d => controllerUpdateParams p d factor) controllerInitParams

section Theorems

/-- Helper: the single-try/catch write block applies exactly the longest
prefix of supported writes. -/
lemma applyWrites_eq_takeWhile (supports : String → Bool) :
    ∀ ws : List (String × ℚ),
      applyWrites supports ws = ws.takeWhile (fun w => supports w.1)
  | [] => rfl
  | w :: rest => by
    by_cases h : supports w.1
    · simp [applyWrites, List.takeWhile_cons, h,
        applyWrites_eq_takeWhile supports rest]
    · simp [applyWrites, List.takeWhile_cons, h]

/-- C1: the claim says each of the 8 parameter writes is independently
tolerant of an unsupported parameter — only the failing write is skipped
and the remaining writes still happen.  Counterexample: on a rig that
supports every parameter except `ParamEyeBallX`, an update performs only
the first 5 writes; `ParamEyeBallY` and `ParamMouthOpenY` are supported
yet never written, because all 8 writes share one try/catch. -/
theorem C1_counterexample :
    (["ParamAngleX", "ParamAngleY", "ParamAngleZ", "ParamEyeLOpen",
      "ParamEyeROpen", "ParamEyeBallY", "ParamMouthOpenY"].contains
        "ParamEyeBallY" = true) ∧
    (["ParamAngleX", "ParamAngleY", "ParamAngleZ", "ParamEyeLOpen",
      "ParamEyeROpen", "ParamEyeBallY", "ParamMouthOpenY"].contains
        "ParamMouthOpenY" = true) ∧
    ((updateFaceData ⟨0, 0, 0, 0, 0, 0, 0, 0, 0, 0⟩ (3/10)
        (loadModel ["ParamAngleX", "ParamAngleY", "ParamAngleZ",
          "ParamEyeLOpen", "ParamEyeROpen", "ParamEyeBallY",
          "ParamMouthOpenY"] initViewer)).2.map Prod.fst =
      ["ParamAngleX", "ParamAngleY", "ParamAngleZ", "ParamEyeLOpen",
       "ParamEyeROpen"]) := by
  decide

/-- C1 (amended): with a loaded model, one update never aborts as a whole
— the smoothing state is always committed — but the writes applied are
exactly the longest prefix of the 8 writes whose parameters the rig
supports: a failing write skips itself AND every later write of the same
update (one shared try/catch), rather than only itself. -/
theorem C1_write_block_truncates (data : FaceTrackingResult) (factor : ℚ)
    (s : ViewerState) (h : List String) (hm : s.model = some h) :
    (updateFaceData data factor s).1.params =
      updateParams s.params data factor ∧
    (updateFaceData data factor s).2 =
      (paramWrites (updateParams s.params data factor)).takeWhile
        (fun w => h.contains w.1) := by
  simp [updateFaceData, hm, applyWrites_eq_takeWhile]

/-- Witness for `C1_write_block_truncates` on a one-parameter rig. -/
theorem C1_write_block_truncates_witness :
    (updateFaceData ⟨0, 0, 0, 0, 0, 0, 0, 0, 0, 0⟩ (3/10)
        (loadModel ["ParamAngleX"] initViewer)).1.params =
      updateParams (loadModel ["ParamAngleX"] initViewer).params
        ⟨0, 0, 0, 0, 0, 0, 0, 0, 0, 0⟩ (3/10) ∧
    (updateFaceData ⟨0, 0, 0, 0, 0, 0, 0, 0, 0, 0⟩ (3/10)
        (loadModel ["ParamAngleX"] initViewer)).2 =
      (paramWrites (updateParams (loadModel ["ParamAngleX"] initViewer).params
        ⟨0, 0, 0, 0, 0, 0, 0, 0, 0, 0⟩ (3/10))).takeWhile
          (fun w => (["ParamAngleX"] : List String).contains w.1) :=
  C1_write_block_truncates ⟨0, 0, 0, 0, 0, 0, 0, 0, 0, 0⟩ (3/10)
    (loadModel ["ParamAngleX"] initViewer) ["ParamAngleX"] rfl

/-- C2: the claim says `eyeOpenL/R` and `mouthOpen` are clamped to [0,1]
for arbitrary raw coefficients.  Counterexample: `ProcessFaceAnchor`
clamps nothing — with a raw blink coefficient of 2 the extracted
`eyeOpenL` is `1 - 2 = -1`, outside [0,1]. -/
theorem C2_counterexample :
    ¬ (0 ≤ (processFaceAnchor 0 0 0
        { eyeBlinkLeft := some 2, eyeBlinkRight := none
          eyeLookOutLeft := none, eyeLookInLeft := none
          eyeLookUpLeft := none, eyeLookDownLeft := none
          jawOpen := none, browOuterUpLeft := none, browDownLeft := none
          browOuterUpRight := none, browDownRight := none }).eyeOpenL ∧
       (processFaceAnchor 0 0 0
        { eyeBlinkLeft := some 2, eyeBlinkRight := none
          eyeLookOutLeft := none, eyeLookInLeft := none
          eyeLookUpLeft := none, eyeLookDownLeft := none
          jawOpen := none, browOuterUpLeft := none, browDownLeft := none
          browOuterUpRight := none, browDownRight := none }).eyeOpenL ≤ 1) := by
  norm_num [processFaceAnchor]

/-- C2 (amended): the extractor applies no clamping; each of `eyeOpenL`,
`eyeOpenR` and `mouthOpen` lands in [0,1] exactly when the raw blink or
jaw-open coefficient it is computed from (defaulted to 0 when absent)
itself lies in [0,1] — the range ARKit documents for blend shapes.  In
particular an out-of-range raw coefficient propagates to an out-of-range
output in that dimension, which a clamping extractor would not do. -/
theorem C2_in_range_iff_raw_in_range (p y r : ℚ) (bs : BlendShapes) :
    ((0 ≤ (processFaceAnchor p y r bs).eyeOpenL ∧
        (processFaceAnchor p y r bs).eyeOpenL ≤ 1) ↔
      (0 ≤ bs.eyeBlinkLeft.getD 0 ∧ bs.eyeBlinkLeft.getD 0 ≤ 1)) ∧
    ((0 ≤ (processFaceAnchor p y r bs).eyeOpenR ∧
        (processFaceAnchor p y r bs).eyeOpenR ≤ 1) ↔
      (0 ≤ bs.eyeBlinkRight.getD 0 ∧ bs.eyeBlinkRight.getD 0 ≤ 1)) ∧
    ((0 ≤ (processFaceAnchor p y r bs).mouthOpen ∧
        (processFaceAnchor p y r bs).mouthOpen ≤ 1) ↔
      (0 ≤ bs.jawOpen.getD 0 ∧ bs.jawOpen.getD 0 ≤ 1)) := by
  simp only [processFaceAnchor]
  refine ⟨?_, ?_, ?_⟩ <;>
    (constructor <;> rintro ⟨h1, h2⟩ <;> exact ⟨by linarith, by linarith⟩)

/-- C3: the claim says an avatar model swap resets the smoothed state to
its defaults.  Counterexample: `loadModel` never touches `paramsRef` — a
viewer that has already smoothed one nonzero frame keeps those values
across a swap (here `angleX = 0.75 ≠ 0` after the swap). -/
theorem C3_counterexample :
    (loadModel ["ParamAngleX"]
      (updateFaceData ⟨1, 0, 0, 0, 0, 0, 0, 0, 0, 0⟩ (3/10)
        (loadModel ["ParamAngleX"] initViewer)).1).params ≠ initParams := by
  intro h
  have ha := congrArg SmoothedParams.angleX h
  norm_num [loadModel, initViewer, updateFaceData, updateParams, lerp,
    PARAM_SCALES, initParams] at ha

/-- C3 (amended): the smoothed parameter state equals the defaults
(angles 0, eyeOpen 1, eyeBall 0, mouthOpen 0) when the viewer is created,
and `loadModel` (a model swap) preserves whatever smoothed state is
current instead of resetting it; no reset happens on swap or restart. -/
theorem C3_swap_preserves_params :
    (∀ (h : List String) (s : ViewerState), (loadModel h s).params = s.params) ∧
    initViewer.params = initParams ∧
    initParams = { angleX := 0, angleY := 0, angleZ := 0, eyeOpenL := 1
                   eyeOpenR := 1, eyeBallX := 0, eyeBallY := 0
                   mouthOpen := 0 } :=
  ⟨fun _ _ => rfl, rfl, rfl⟩

/-- Helper: one-dimension smoothing error contracts by `(1 - factor)`
each frame. -/
lemma lerpIter_sub_eq (f T s0 : ℚ) :
    ∀ n, lerpIter f T s0 n - T = (s0 - T) * (1 - f) ^ n := by
  intro n
  induction n with
  | zero => simp [lerpIter]
  | succ n ih =>
    have hstep : lerpIter f T s0 (n + 1) =
        lerp (lerpIter f T s0 n) T f := rfl
    have hrw : lerpIter f T s0 n = T + (s0 - T) * (1 - f) ^ n := by
      linarith [ih]
    rw [hstep, lerp, hrw]
    ring

/-- C4: after `n` smoothing updates toward a constant target `T` with
factor `f ∈ (0,1]`, the distance to the target is exactly
`|state_0 − T|·(1−f)^n`; with `f = 0.3`, `state_0 = 0`, `T = 1`, after 7
updates the error is `0.7^7 = 0.0823543`. -/
theorem C4_smoothing_convergence (f : ℚ) (h0 : 0 < f) (h1 : f ≤ 1)
    (s0 T : ℚ) (n : ℕ) :
    |lerpIter f T s0 n - T| = |s0 - T| * (1 - f) ^ n ∧
    |lerpIter (3/10) 1 0 7 - 1| = 823543 / 10000000 := by
  constructor
  · rw [lerpIter_sub_eq, abs_mul, abs_pow,
      abs_of_nonneg (by linarith : (0 : ℚ) ≤ 1 - f)]
  · rw [lerpIter_sub_eq]
    norm_num

/-- Witness for `C4_smoothing_convergence` at the spec's example. -/
theorem C4_smoothing_convergence_witness :
    |lerpIter (3/10) 1 0 7 - 1| = |0 - 1| * (1 - 3/10) ^ 7 ∧
    |lerpIter (3/10) 1 0 7 - 1| = 823543 / 10000000 :=
  C4_smoothing_convergence (3/10) (by norm_num) (by norm_num) 0 1 7

/-- C5: a transport-level success whose parsed payload is an object
carrying a string-valued `error` field is returned to the caller as a
logical failure carrying that string, never as a success. -/
theorem C5_error_field_is_logical_failure {T : Type} (j : Json) (s : String)
    (h : errorStringField j = some s) (schema : Json → Option T) :
    invoke (BridgeRaw.payload j) schema = Except.error s := by
  simp [invoke, h]

/-- Witness for `C5_error_field_is_logical_failure` on the payload
`{"error": "boom"}` with a schema that would otherwise accept it. -/
theorem C5_error_field_is_logical_failure_witness :
    invoke (BridgeRaw.payload (Json.jobj [("error", Json.jstr "boom")]))
      (fun _ => some (0 : ℕ)) = Except.error "boom" :=
  C5_error_field_is_logical_failure
    (Json.jobj [("error", Json.jstr "boom")]) "boom" rfl (fun _ => some 0)

/-- C6: an event whose payload is unparseable, or whose `type` is not
`"faceTracking"`, or which lacks usable `data`, is dropped by
`handleMessage` without invoking the data callback and without any
exception escaping (the catch swallows parse errors, so `handleMessage`
is total); and a later well-formed faceTracking event appended to any
message sequence is still delivered to the callback with its data. -/
theorem C6_malformed_events_dropped (parse : String → Option Json)
    (raw : String)
    (hbad : parse raw = none ∨
      ∃ j, parse raw = some j ∧ faceTrackingPayload j = none)
    (prev : List (Option String)) (goodRaw : String) (jg d : Json)
    (hg : parse goodRaw = some jg) (hd : faceTrackingPayload jg = some d) :
    handleMessage parse (some raw) = none ∧
    processMessages parse (prev ++ [some goodRaw]) =
      processMessages parse prev ++ [d] := by
  constructor
  · rcases hbad with h | ⟨j, hj, hp⟩
    · simp [handleMessage, handleMessageBody, h]
    · simp [handleMessage, handleMessageBody, hj, hp]
  · unfold processMessages
    rw [List.filterMap_append]
    simp [handleMessage, handleMessageBody, hg, hd]

/-- Witness for `C6_malformed_events_dropped`: the string `"bad"` fails
to parse and is dropped; the later `"good"` message, parsing to
`{type: "faceTracking", data: {mouthOpen: 1}}`, is still delivered. -/
theorem C6_malformed_events_dropped_witness :
    handleMessage
      (fun r => if r = "good"
        then some (Json.jobj [("type", Json.jstr "faceTracking"),
          ("data", Json.jobj [("mouthOpen", Json.jnum 1)])])
        else none)
      (some "bad") = none ∧
    processMessages
      (fun r => if r = "good"
        then some (Json.jobj [("type", Json.jstr "faceTracking"),
          ("data", Json.jobj [("mouthOpen", Json.jnum 1)])])
        else none)
      ([some "bad", none] ++ [some "good"]) =
      processMessages
        (fun r => if r = "good"
          then some (Json.jobj [("type", Json.jstr "faceTracking"),
            ("data", Json.jobj [("mouthOpen", Json.jnum 1)])])
          else none)
        [some "bad", none] ++
        [Json.jobj [("mouthOpen", Json.jnum 1)]] :=
  C6_malformed_events_dropped _ "bad" (Or.inl (if_neg (by decide)))
    [some "bad", none] "good"
    (Json.jobj [("type", Json.jstr "faceTracking"),
      ("data", Json.jobj [("mouthOpen", Json.jnum 1)])])
    (Json.jobj [("mouthOpen", Json.jnum 1)])
    (if_pos rfl) rfl

/-- Helper: a pointer-move whose cumulative displacement is within the
threshold leaves the freshly armed drag state completely unchanged. -/
lemma applyMoves_below_threshold (x0 y0 ox oy : ℚ) :
    ∀ L : List (ℚ × ℚ),
      (∀ m ∈ L, |m.1 - x0| + |m.2 - y0| ≤ DRAG_THRESHOLD_PX) →
      applyMoves true L ⟨⟨true, x0, y0, ox, oy, false⟩, ox, oy⟩ =
        ⟨⟨true, x0, y0, ox, oy, false⟩, ox, oy⟩
  | [], _ => rfl
  | m :: rest, h => by
    have hm := h m (List.mem_cons_self _ _)
    have hnot : ¬ (DRAG_THRESHOLD_PX < |m.1 - x0| + |m.2 - y0|) :=
      not_lt.mpr hm
    have hstep : handlePointerMove true m.1 m.2
        ⟨⟨true, x0, y0, ox, oy, false⟩, ox, oy⟩ =
        ⟨⟨true, x0, y0, ox, oy, false⟩, ox, oy⟩ := by
      simp [handlePointerMove, hnot]
    unfold applyMoves
    rw [List.foldl_cons]
    show applyMoves true rest
      (handlePointerMove true m.1 m.2 ⟨⟨true, x0, y0, ox, oy, false⟩, ox, oy⟩) = _
    rw [hstep]
    exact applyMoves_below_threshold x0 y0 ox oy rest
      (fun m' hm' => h m' (List.mem_cons_of_mem _ hm'))

/-- C7: a pointer-down (pan enabled, off the controls region) followed by
any sequence of pointer-moves whose cumulative |dx|+|dy| displacement
never exceeds `DRAG_THRESHOLD_PX = 4`, then a pointer-up, never mutates
the viewport offset (every move is a no-op on the armed state) and ends
with `moved = false` — the state machine's drag/tap discriminator
classifying the gesture as a tap. -/
theorem C7_subthreshold_gesture_is_tap (x0 y0 : ℚ)
    (moves : List (ℚ × ℚ)) (s : PanState)
    (hsmall : ∀ m ∈ moves, |m.1 - x0| + |m.2 - y0| ≤ DRAG_THRESHOLD_PX) :
    applyMoves true moves (handlePointerDown true false x0 y0 s) =
      handlePointerDown true false x0 y0 s ∧
    handlePointerUp
        (applyMoves true moves (handlePointerDown true false x0 y0 s)) =
      ⟨⟨false, x0, y0, s.offsetX, s.offsetY, false⟩, s.offsetX, s.offsetY⟩ := by
  have hdown : handlePointerDown true false x0 y0 s =
      ⟨⟨true, x0, y0, s.offsetX, s.offsetY, false⟩, s.offsetX, s.offsetY⟩ := by
    simp [handlePointerDown]
  rw [hdown, applyMoves_below_threshold x0 y0 s.offsetX s.offsetY moves hsmall]
  exact ⟨rfl, rfl⟩

/-- Witness for `C7_subthreshold_gesture_is_tap`: a 2-move gesture whose
displacements stay at |dx|+|dy| ≤ 3. -/
theorem C7_subthreshold_gesture_is_tap_witness :
    applyMoves true [(1, 1), (2, 1)]
        (handlePointerDown true false 0 0 ⟨⟨false, 0, 0, 0, 0, false⟩, 5, 7⟩) =
      handlePointerDown true false 0 0 ⟨⟨false, 0, 0, 0, 0, false⟩, 5, 7⟩ ∧
    handlePointerUp
        (applyMoves true [(1, 1), (2, 1)]
          (handlePointerDown true false 0 0
            ⟨⟨false, 0, 0, 0, 0, false⟩, 5, 7⟩)) =
      ⟨⟨false, 0, 0,
        (⟨⟨false, 0, 0, 0, 0, false⟩, 5, 7⟩ : PanState).offsetX,
        (⟨⟨false, 0, 0, 0, 0, false⟩, 5, 7⟩ : PanState).offsetY, false⟩,
        (⟨⟨false, 0, 0, 0, 0, false⟩, 5, 7⟩ : PanState).offsetX,
        (⟨⟨false, 0, 0, 0, 0, false⟩, 5, 7⟩ : PanState).offsetY⟩ :=
  C7_subthreshold_gesture_is_tap 0 0 [(1, 1), (2, 1)]
    ⟨⟨false, 0, 0, 0, 0, false⟩, 5, 7⟩ (by
      intro m hm
      simp only [List.mem_cons, List.mem_singleton] at hm
      rcases hm with h | h | h
      · rw [h]; norm_num [DRAG_THRESHOLD_PX]
      · rw [h]; norm_num [DRAG_THRESHOLD_PX]
      · cases h)

/-- Helper: one wheel notch on the `Live2DViewer.tsx` handler lands in
`[minScale, maxScale]`. -/
lemma handleWheel_mem (minScale maxScale : ℚ) (hms : minScale ≤ maxScale)
    (d : Bool) (s : ℚ) :
    minScale ≤ handleWheel minScale maxScale d s ∧
      handleWheel minScale maxScale d s ≤ maxScale := by
  unfold handleWheel
  exact ⟨le_min hms (le_max_left _ _), min_le_left _ _⟩

/-- Helper: a fold of wheel notches stays in `[minScale, maxScale]`. -/
lemma foldl_handleWheel_mem (minScale maxScale : ℚ)
    (hms : minScale ≤ maxScale) :
    ∀ (ds : List Bool) (s : ℚ), minScale ≤ s → s ≤ maxScale →
      minScale ≤ ds.foldl (fun s d => handleWheel minScale maxScale d s) s ∧
        ds.foldl (fun s d => handleWheel minScale maxScale d s) s ≤ maxScale
  | [], s, h0, h1 => ⟨h0, h1⟩
  | d :: rest, s, _, _ => by
    rw [List.foldl_cons]
    exact foldl_handleWheel_mem minScale maxScale hms rest _
      (handleWheel_mem minScale maxScale hms d s).1
      (handleWheel_mem minScale maxScale hms d s).2

/-- Helper: one part_002 zoom interaction (wheel notch or pinch ratio)
lands in `[0.1, 5]`. -/
lemma zoomOp_mem (op : ZoomOp) (z : ℚ) :
    1/10 ≤ applyZoomOps [op] z ∧ applyZoomOps [op] z ≤ 5 := by
  cases op with
  | wheel d =>
    unfold applyZoomOps controllerWheelZoom
    exact ⟨le_max_left _ _, max_le (by norm_num) (min_le_left _ _)⟩
  | pinch r =>
    unfold applyZoomOps controllerPinchZoom
    exact ⟨le_max_left _ _, max_le (by norm_num) (min_le_left _ _)⟩

/-- Helper: a fold of part_002 zoom interactions stays in `[0.1, 5]`. -/
lemma applyZoomOps_mem :
    ∀ (ops : List ZoomOp) (z : ℚ), 1/10 ≤ z → z ≤ 5 →
      1/10 ≤ applyZoomOps ops z ∧ applyZoomOps ops z ≤ 5
  | [], z, h0, h1 => ⟨h0, h1⟩
  | op :: rest, z, _, _ => by
    unfold applyZoomOps
    rw [List.foldl_cons]
    exact applyZoomOps_mem rest _ (zoomOp_mem op z).1 (zoomOp_mem op z).2

/-- C8: starting from any scale within the clamp range, any finite
sequence of zoom operations leaves the scale within the range: the
`Live2DViewer.tsx` wheel handler keeps the scale in `[minScale, maxScale]`
(defaults `DEFAULT_MIN_SCALE = 0.05`, `DEFAULT_MAX_SCALE = 2.0`), and the
part_002 wheel/pinch handlers keep their zoom in their clamp range
`[0.1, 5]`. -/
theorem C8_zoom_scale_clamped (minScale maxScale : ℚ)
    (hms : minScale ≤ maxScale) (s0 : ℚ)
    (h0 : minScale ≤ s0) (h1 : s0 ≤ maxScale) (ds : List Bool)
    (z0 : ℚ) (hz0 : 1/10 ≤ z0) (hz1 : z0 ≤ 5) (ops : List ZoomOp) :
    (minScale ≤ ds.foldl (fun s d => handleWheel minScale maxScale d s) s0 ∧
      ds.foldl (fun s d => handleWheel minScale maxScale d s) s0 ≤ maxScale) ∧
    (1/10 ≤ applyZoomOps ops z0 ∧ applyZoomOps ops z0 ≤ 5) ∧
    DEFAULT_MIN_SCALE = 1/20 ∧ DEFAULT_MAX_SCALE = 2 :=
  ⟨foldl_handleWheel_mem minScale maxScale hms ds s0 h0 h1,
   applyZoomOps_mem ops z0 hz0 hz1, rfl, rfl⟩

/-- Witness for `C8_zoom_scale_clamped` at the default bounds with a
concrete wheel/pinch sequence. -/
theorem C8_zoom_scale_clamped_witness :
    ((1/20 : ℚ) ≤ [true, false, true].foldl
        (fun s d => handleWheel (1/20) 2 d s) (3/10) ∧
      [true, false, true].foldl
        (fun s d => handleWheel (1/20) 2 d s) (3/10) ≤ 2) ∧
    ((1/10 : ℚ) ≤ applyZoomOps [ZoomOp.wheel true, ZoomOp.pinch 2] 1 ∧
      applyZoomOps [ZoomOp.wheel true, ZoomOp.pinch 2] 1 ≤ 5) ∧
    DEFAULT_MIN_SCALE = 1/20 ∧ DEFAULT_MAX_SCALE = 2 :=
  C8_zoom_scale_clamped (1/20) 2 (by norm_num) (3/10) (by norm_num)
    (by norm_num) [true, false, true] 1 (by norm_num) (by norm_num)
    [ZoomOp.wheel true, ZoomOp.pinch 2]

/-- C9: `StartFaceTracking` on a device without ARKit face-tracking
support (`arSupported = false`, iOS variant) answers
`success = false` with the fixed non-empty error string and leaves the
service not tracking, so `GetFaceTrackingStatus` still reports
`isTracking = false`; the non-iOS `StartTrackingAsync` variant behaves
the same (always false, state untouched). -/
theorem C9_start_unsupported_fails (env : IOSEnv) (s : TrackingState)
    (hsup : env.arSupported = false) (hnt : s.isTracking = false) :
    ((startFaceTrackingBridge (startTrackingAsyncIOS env) s).1.success =
        false ∧
      (startFaceTrackingBridge (startTrackingAsyncIOS env) s).1.error =
        some "Failed to start face tracking. Device may not support ARKit face tracking." ∧
      ("Failed to start face tracking. Device may not support ARKit face tracking." ≠ "") ∧
      getFaceTrackingStatus
        (startFaceTrackingBridge (startTrackingAsyncIOS env) s).2 = false) ∧
    ((startFaceTrackingBridge startTrackingAsyncDefault s).1.success =
        false ∧
      getFaceTrackingStatus
        (startFaceTrackingBridge startTrackingAsyncDefault s).2 = false) := by
  refine ⟨⟨?_, ?_, by decide, ?_⟩, ?_, ?_⟩ <;>
    simp [startFaceTrackingBridge, startTrackingAsyncIOS,
      startTrackingAsyncDefault, getFaceTrackingStatus, hsup, hnt]

/-- Witness for `C9_start_unsupported_fails` on an unsupported device
with a fresh (not-tracking) service. -/
theorem C9_start_unsupported_fails_witness :
    ((startFaceTrackingBridge
        (startTrackingAsyncIOS ⟨false, true, false⟩) ⟨false⟩).1.success =
        false ∧
      (startFaceTrackingBridge
        (startTrackingAsyncIOS ⟨false, true, false⟩) ⟨false⟩).1.error =
        some "Failed to start face tracking. Device may not support ARKit face tracking." ∧
      ("Failed to start face tracking. Device may not support ARKit face tracking." ≠ "") ∧
      getFaceTrackingStatus
        (startFaceTrackingBridge
          (startTrackingAsyncIOS ⟨false, true, false⟩) ⟨false⟩).2 = false) ∧
    ((startFaceTrackingBridge startTrackingAsyncDefault ⟨false⟩).1.success =
        false ∧
      getFaceTrackingStatus
        (startFaceTrackingBridge startTrackingAsyncDefault ⟨false⟩).2 =
        false) :=
  C9_start_unsupported_fails ⟨false, true, false⟩ ⟨false⟩ rfl rfl

/-- C10: the two independently written smoothing pipelines —
`updateFaceData` in `Live2DViewer.tsx` and
`Live2DController.updateFaceData` — are extensionally equal: from their
(identical) initial parameter states, fed the same frame sequence with
the same lerp factor, they agree on all 8 smoothed dimensions after every
step (same 2.5 angle scaling, unscaled eyeOpen/eyeBall/mouthOpen). -/
theorem C10_pipelines_extensionally_equal (factor : ℚ)
    (frames : List FaceTrackingResult) (k : ℕ) :
    runViewerPipeline factor (frames.take k) =
      runControllerPipeline factor (frames.take k) ∧
    (∀ p d, updateParams p d factor = controllerUpdateParams p d factor) ∧
    initParams = controllerInitParams :=
  ⟨rfl, fun _ _ => rfl, rfl⟩

end Theorems

end AviiMaui
